import Mathlib

namespace VulnPatchAI

/-!
Shallow embedding of the VulnPatch AI scan-ingestion and enrichment pipeline
(backend/app/services: xml_parser.py, scan_service.py, cve_service.py,
gemini_llm_service.py, cache_service.py, websocket_service.py, and
backend/app/api/v1/endpoints/scans.py), together with theorems settling the
specification claims about it.

Python dictionaries are embedded as structures, absent dictionary keys and
XML attributes as Option, Python float CVSS scores as Rat (the program only
compares them against the decimal constants 9.0, 7.0 and 4.0 and tests
truthiness, where Rat arithmetic agrees with IEEE doubles on these values),
and Python string truthiness as a non-emptiness test.
-/

/-! ## String helpers mirroring the Python primitives used by the code -/

/-- Embedding of the Python membership test `needle in hay` on lists. -/
def listSub [BEq α] : List α → List α → Bool
  | n, [] => n.isEmpty
  | n, h :: t => n.isPrefixOf (h :: t) || listSub n t

/-- Embedding of the Python substring test `needle in hay` on strings. -/
def inStr (needle hay : String) : Bool := listSub needle.toList hay.toList

/-- Embedding of Python `s.lower()` (every string the program lowers is
ASCII, where the two agree). -/
def pyLower (s : String) : String := String.mk (s.toList.map Char.toLower)

/-- Case-insensitive substring test, embedding `needle.lower() in hay.lower()`. -/
def inStrCI (needle hay : String) : Bool := inStr (pyLower needle) (pyLower hay)

/-- Embedding of Python `s.endswith(suffix)`. -/
def pyEndsWith (s suffix : String) : Bool := suffix.toList.isSuffixOf s.toList

/-! ## Document Parser (services/xml_parser.py, class NmapXMLParser)

The source operates on an ElementTree produced by `ET.fromstring`; the claims
quantify over well-formed input, so the embedding starts from the parsed
element tree, mirroring each element and attribute the code reads.  Attributes
that the code reads with a default are Option String here, with the default
applied exactly where the code applies it. -/

/-- One `script` element under a `port` as read by `_extract_port_info`. -/
structure ScriptEntry where
  id : String
  output : String
deriving Repr, DecidableEq

/-- Attributes of a `service` element; each is optional in the document and
the code reads them with default `""`. -/
structure ServiceAttrs where
  name : Option String
  product : Option String
  version : Option String
  extrainfo : Option String
  method : Option String
  conf : Option String
deriving Repr, DecidableEq

/-- One `port` element.  `state` is the `state` attribute of the `state`
child; it is `none` when the child or the attribute is missing, in which case
the code leaves the port state as `""`. -/
structure PortElem where
  portid : Option Nat
  protocol : Option String
  state : Option String
  service : Option ServiceAttrs
  scripts : List ScriptEntry
deriving Repr, DecidableEq

/-- One `address` element under a `host`. -/
structure AddressElem where
  addr : Option String
  addrtype : Option String
deriving Repr, DecidableEq

/-- One `hostname` element under `hostnames`. -/
structure HostnameElem where
  name : Option String
  htype : Option String
deriving Repr, DecidableEq

/-- One `host` element.  `status` is the `state` attribute of the `status`
child: `none` means the child is missing (the code then records `"unknown"`),
`some none` means the child is present but the attribute missing (the code
then records Python `None`). -/
structure HostElem where
  status : Option (Option String)
  addresses : List AddressElem
  hostnames : List HostnameElem
  ports : List PortElem
deriving Repr, DecidableEq

/-- The document root: attributes read by `_extract_scan_info` plus the host
list.  `runstats_finished` is `none` when `runstats` or its `finished` child
is missing. -/
structure NmapRoot where
  scanner : Option String
  version : Option String
  start : Option String
  args : Option String
  runstats_finished : Option (Option String × Option String)
  hosts : List HostElem
deriving Repr, DecidableEq

/-- Service dictionary built inside `_extract_port_info` (all six keys are
always set there, with default `""`). -/
structure ServiceInfo where
  name : String
  product : String
  version : String
  extrainfo : String
  method : String
  conf : String
deriving Repr, DecidableEq

/-- The `port_data` dictionary returned by `_extract_port_info`; `service` is
`none` when the dictionary is the empty `{}` placeholder. -/
structure PortData where
  port : Nat
  protocol : String
  state : String
  service : Option ServiceInfo
  scripts : List ScriptEntry
deriving Repr, DecidableEq

/-- The unconditional part of `_extract_port_info`: build `port_data` from the
port element, before the final open-state check. -/
def portDataOf (p : PortElem) : PortData :=
  { port := p.portid.getD 0
    protocol := p.protocol.getD "tcp"
    state := p.state.getD ""
    service := p.service.map (fun a =>
      { name := a.name.getD ""
        product := a.product.getD ""
        version := a.version.getD ""
        extrainfo := a.extrainfo.getD ""
        method := a.method.getD ""
        conf := a.conf.getD "" })
    scripts := p.scripts }

/-- Embedding of `NmapXMLParser._extract_port_info`: build the port data and
return it only when the port state is `"open"`. -/
def extract_port_info (p : PortElem) : Option PortData :=
  let pd := portDataOf p
  if pd.state = "open" then some pd else none

/-- The host dictionary built by `_extract_hosts`. -/
structure HostData where
  state : Option String
  addresses : List AddressElem
  hostnames : List HostnameElem
  ports : List PortData
deriving Repr, DecidableEq

/-- Embedding of the per-host body of `NmapXMLParser._extract_hosts`. -/
def extract_host (h : HostElem) : HostData :=
  { state := match h.status with
      | none => some "unknown"
      | some a => a
    addresses := h.addresses
    hostnames := h.hostnames
    ports := h.ports.filterMap extract_port_info }

/-- Embedding of `NmapXMLParser._extract_hosts`. -/
def extract_hosts (hs : List HostElem) : List HostData := hs.map extract_host

/-! ## Vulnerability Candidate Extractor (xml_parser.py, `_identify_vulnerabilities`) -/

/-- One candidate dictionary appended by `_identify_vulnerabilities`.  The
Python key `type` is `vtype` here (`type` is reserved in Lean);
`script_output` is present only on script-detection candidates. -/
structure VulnCandidate where
  vtype : String
  severity : String
  description : String
  recommendation : String
  script_output : Option String
  cve_candidates : List String
deriving Repr, DecidableEq

/-- The service dictionary assembled by `_extract_services` before the
`potential_vulnerabilities` key is added. -/
structure ServiceRecord where
  host : Option String
  port : Nat
  protocol : String
  service_name : String
  product : String
  version : String
  extrainfo : String
  state : String
  scripts : List ScriptEntry
deriving Repr, DecidableEq

/-- The static `vulnerable_patterns` table of `_identify_vulnerabilities`:
service name to (known-vulnerable version substrings, severity). -/
def vulnerable_patterns : List (String × (List String × String)) :=
  [ ("ssh", (["OpenSSH 7.4", "OpenSSH 6.6"], "Medium")),
    ("http", (["Apache 2.2", "nginx 1.10"], "High")),
    ("ftp", (["vsftpd 2.3.4"], "Critical")),
    ("telnet", (["*"], "High")),
    ("smtp", (["Postfix 2.8"], "Medium")),
    ("mysql", (["MySQL 5.5"], "High")),
    ("postgresql", (["PostgreSQL 9.3"], "Medium")) ]

/-- The `is_vulnerable` computation of `_identify_vulnerabilities`.  The
wildcard check is Python `"*" in pattern["versions"]` (list membership); the
substring check only runs under `elif version:`, that is when the version
string is non-empty. -/
def version_match (service : ServiceRecord) (versions : List String) : Bool :=
  if versions.contains "*" then true
  else if service.version ≠ "" then
    versions.any (fun v => inStrCI v (service.product ++ " " ++ service.version))
  else false

/-- The `outdated_version` candidate dictionary appended on a pattern match. -/
def outdated_candidate (service : ServiceRecord) (sev : String) : VulnCandidate :=
  { vtype := "outdated_version"
    severity := sev
    description := "Potentially vulnerable " ++ pyLower service.service_name ++
      " service detected"
    recommendation := "Update " ++ pyLower service.service_name ++
      " to the latest version"
    script_output := none
    cve_candidates := [] }

/-- The `script_detection` candidate dictionary appended for a qualifying
script entry. -/
def script_candidate (sc : ScriptEntry) : VulnCandidate :=
  { vtype := "script_detection"
    severity := "Unknown"
    description := "Vulnerability detected by script: " ++ sc.id
    recommendation := "Review script output and apply appropriate patches"
    script_output := some sc.output
    cve_candidates := [] }

/-- Embedding of `NmapXMLParser._identify_vulnerabilities`: the pattern-table
candidate (at most one) followed by one candidate per script entry whose id
contains `vuln` or `cve` as a substring. -/
def identify_vulnerabilities (service : ServiceRecord) : List VulnCandidate :=
  (match vulnerable_patterns.lookup (pyLower service.service_name) with
   | none => []
   | some (versions, sev) =>
     if version_match service versions then [outdated_candidate service sev]
     else []) ++
  service.scripts.filterMap (fun sc =>
    if inStr "vuln" sc.id || inStr "cve" sc.id then some (script_candidate sc)
    else none)

/-- The completed service dictionary of `_extract_services`, with the
`potential_vulnerabilities` key filled in. -/
structure ServiceData extends ServiceRecord where
  potential_vulnerabilities : List VulnCandidate
deriving Repr, DecidableEq

/-- The host ip chosen at the top of the per-host loop in
`_extract_services`: first address if any, else `"unknown"`. -/
def hostIpOfAddrs (addrs : List AddressElem) : Option String :=
  match addrs with
  | [] => some "unknown"
  | a :: _ => a.addr

/-- The `service_data` dictionary built for one port in `_extract_services`
(reads of the service sub-dictionary use `.get` with the defaults of the
source: name defaults to `"unknown"`, the rest to `""`). -/
def serviceRecordOf (host_ip : Option String) (p : PortData) : ServiceRecord :=
  { host := host_ip
    port := p.port
    protocol := p.protocol
    service_name := match p.service with | none => "unknown" | some si => si.name
    product := match p.service with | none => "" | some si => si.product
    version := match p.service with | none => "" | some si => si.version
    extrainfo := match p.service with | none => "" | some si => si.extrainfo
    state := p.state
    scripts := p.scripts }

/-- One completed service entry of `_extract_services`. -/
def serviceDataOf (host_ip : Option String) (p : PortData) : ServiceData :=
  let r := serviceRecordOf host_ip p
  { toServiceRecord := r
    potential_vulnerabilities := identify_vulnerabilities r }

/-- Embedding of `NmapXMLParser._extract_services`. -/
def extract_services (hosts : List HostData) : List ServiceData :=
  hosts.flatMap (fun h =>
    h.ports.map (fun p => serviceDataOf (hostIpOfAddrs h.addresses) p))

/-! ## Top-level parse (xml_parser.py, `parse_xml_file`) -/

/-- The `scan_info` dictionary of `_extract_scan_info`; `end_time` and
`elapsed` are present only when `runstats/finished` exists. -/
structure ScanInfo where
  scanner : String
  version : String
  start_time : String
  args : String
  end_time : Option String
  elapsed : Option String
deriving Repr, DecidableEq

/-- Embedding of `NmapXMLParser._extract_scan_info`. -/
def extract_scan_info (r : NmapRoot) : ScanInfo :=
  { scanner := r.scanner.getD "nmap"
    version := r.version.getD ""
    start_time := r.start.getD ""
    args := r.args.getD ""
    end_time := r.runstats_finished.map (fun f => f.1.getD "")
    elapsed := r.runstats_finished.map (fun f => f.2.getD "") }

/-- The dictionary returned by `parse_xml_file` (the wall-clock `parsed_at`
timestamp is outside the embedding). -/
structure ParsedScan where
  scan_info : ScanInfo
  hosts : List HostData
  services : List ServiceData
  total_hosts : Nat
  total_services : Nat
deriving Repr, DecidableEq

/-- Embedding of `NmapXMLParser.parse_xml_file` on a well-formed element tree
(the `ET.ParseError` path concerns byte streams that do not reach this code;
claims about well-formed input start here). -/
def parse_xml_file (root : NmapRoot) : ParsedScan :=
  let scan_info := extract_scan_info root
  let hosts := extract_hosts root.hosts
  let services := extract_services hosts
  { scan_info := scan_info
    hosts := hosts
    services := services
    total_hosts := hosts.length
    total_services := services.length }

/-- A port element counts as open exactly when its state attribute reads
`"open"` after the default `""` is applied. -/
def openPort (p : PortElem) : Bool := (p.state.getD "") == "open"

/-! ## Claim C5: pattern-table matching in the candidate extractor -/

/-- A concrete observed service whose product string alone contains a
vulnerable-version substring while the version attribute is empty. -/
def ftpNoVersionService : ServiceRecord :=
  { host := some "10.0.0.5"
    port := 21
    protocol := "tcp"
    service_name := "ftp"
    product := "vsftpd 2.3.4"
    version := ""
    extrainfo := ""
    state := "open"
    scripts := [] }

/-- A concrete observed service with a populated version attribute, matching
the `ftp` table entry. -/
def ftpVersionedService : ServiceRecord :=
  { host := some "10.0.0.5"
    port := 21
    protocol := "tcp"
    service_name := "ftp"
    product := "vsftpd"
    version := "2.3.4"
    extrainfo := ""
    state := "open"
    scripts := [] }

/-! ## External vulnerability database lookup (services/cve_service.py)

CVSS base scores are IEEE doubles in the source; they are embedded as Rat,
which agrees with double arithmetic on the comparisons the code performs
(against the constants 9.0, 7.0, 4.0 and the truthiness test against 0.0). -/

/-- One per-version CVSS metric block of an NVD response item; the code reads
only `cvssData.baseScore`, absent here as `none`. -/
structure CvssMetric where
  baseScore : Option Rat
deriving Repr, DecidableEq

/-- One NVD vulnerability item as read by `CVEService._parse_cve_data`.  The
three metric lists model `metrics["cvssMetricV31"]` and friends, with `[]`
for an absent or empty entry (the code treats the two alike).  Descriptions
are (lang, value) pairs. -/
structure CveItem where
  id : String
  metricsV31 : List CvssMetric
  metricsV30 : List CvssMetric
  metricsV2 : List CvssMetric
  descriptions : List (String × String)
  published : String
  lastModified : String
deriving Repr, DecidableEq

/-- The dictionary returned by `_parse_cve_data`.  The legacy `no_cve_found`
sentinel key is carried as a Bool; `_parse_cve_data` never sets it. -/
structure CveResult where
  cve_id : String
  cvss_score : Option Rat
  severity : String
  description : String
  published_date : String
  last_modified : String
  nvd_url : String
  no_cve_found : Bool
deriving Repr, DecidableEq

/-- The score-to-bucket mapping inside `_parse_cve_data`. -/
def severity_of_score (s : Rat) : String :=
  if s ≥ 9 then "Critical"
  else if s ≥ 7 then "High"
  else if s ≥ 4 then "Medium"
  else "Low"

/-- The metric-version loop of `_parse_cve_data`: the first of
`cvssMetricV31`, `cvssMetricV30`, `cvssMetricV2` that is present and
non-empty supplies its first entry, and the loop breaks there. -/
def first_metric (c : CveItem) : Option CvssMetric :=
  match c.metricsV31 with
  | m :: _ => some m
  | [] =>
    match c.metricsV30 with
    | m :: _ => some m
    | [] => c.metricsV2.head?

/-- The `cvss_score` value left by the metric loop of `_parse_cve_data`. -/
def parsed_score (item : CveItem) : Option Rat :=
  match first_metric item with
  | none => none
  | some m => m.baseScore

/-- The `severity` value left by the metric loop of `_parse_cve_data`: the
bucket of the score when the score is truthy (present and not 0.0), the
initial `"Unknown"` otherwise. -/
def parsed_severity (item : CveItem) : String :=
  match first_metric item with
  | none => "Unknown"
  | some m =>
    match m.baseScore with
    | none => "Unknown"
    | some s => if s ≠ 0 then severity_of_score s else "Unknown"

/-- The first English description, default `""`. -/
def first_en_description (ds : List (String × String)) : String :=
  match ds.find? (fun d => d.1 == "en") with
  | some d => d.2
  | none => ""

/-- Embedding of `CVEService._parse_cve_data`. -/
def parse_cve_data (item : CveItem) : CveResult :=
  { cve_id := item.id
    cvss_score := parsed_score item
    severity := parsed_severity item
    description := first_en_description item.descriptions
    published_date := item.published
    last_modified := item.lastModified
    nvd_url := "https://nvd.nist.gov/vuln/detail/" ++ item.id
    no_cve_found := false }

/-! ## Enrichment merge (services/scan_service.py) and the LLM sub-step
(services/gemini_llm_service.py) -/

/-- One remediation command of the LLM analysis (gemini_llm_service.py,
class RemediationCommand). -/
structure RemediationCommand where
  title : String
  command : String
  os : String
  description : String
  requires_sudo : Bool
  destructive : Bool
deriving Repr, DecidableEq

/-- The analysis dictionary consumed by `_enhance_vulnerability_with_llm`.
Empty string and empty list model the absent or falsy entries that the code
tests with `.get`. -/
structure LlmAnalysis where
  severity : String
  risk_score : Option Rat
  recommendation : String
  remediation_commands : List RemediationCommand
  business_impact : String
  technical_details : String
  patch_priority : String
  estimated_effort : String
  prerequisites : List String
deriving Repr, DecidableEq

/-- Embedding of `GeminiLLMService._fallback_analysis`. -/
def fallback_analysis (service_name version description : String) : LlmAnalysis :=
  { severity := "Medium"
    risk_score := some 5
    recommendation := "Update " ++ service_name ++
      " to the latest version and review security configuration"
    remediation_commands := []
    business_impact :=
      "Potential security vulnerability that could impact system security"
    technical_details := description
    patch_priority := "Medium"
    estimated_effort := "2-4 hours"
    prerequisites := ["System backup", "Maintenance window", "Testing environment"] }

/-- The state of one Gemini-backend call inside
`GeminiLLMService.analyze_vulnerability`: the client may be unconfigured (no
API key, a permanent state), the selected analysis may raise, or it returns
its result (possibly `None`). -/
inductive LlmBackend where
  | unavailable
  | errors (msg : String)
  | returns (a : Option LlmAnalysis)
deriving Repr, DecidableEq

/-- Embedding of `GeminiLLMService.analyze_vulnerability` for the default
vulnerability-assessment analysis type: with no client, or when the analysis
raises, the deterministic fallback is returned in place of an error. -/
def analyze_vulnerability (backend : LlmBackend) (service_name version : String)
    (port : Nat) (vulnerability_description : String) (cve_id : Option String) :
    Option LlmAnalysis :=
  match backend with
  | .unavailable =>
    some (fallback_analysis service_name version vulnerability_description)
  | .errors _ =>
    some (fallback_analysis service_name version vulnerability_description)
  | .returns a => a

/-- The persisted `Vulnerability` record as the orchestrator builds it.
Modelled from the spec: the ORM class (app/models/vulnerability.py) is
imported but absent from the source tree, so the columns follow the data
model of the spec and the attributes `_process_scan` and the two enhancement
steps assign; columns not assigned at construction are null. -/
structure Vulnerability where
  scan_id : Nat
  service_name : String
  service_version : String
  port : Nat
  protocol : String
  description : String
  severity : String
  status : String
  cve_id : Option String
  cvss_score : Option Rat
  recommendation : Option String
  remediation_commands : Option (List RemediationCommand)
deriving Repr, DecidableEq

/-- The record constructed in `_process_scan` for one candidate, before
enrichment. -/
def mkVulnerability (scan_id : Nat) (service : ServiceRecord)
    (vd : VulnCandidate) : Vulnerability :=
  { scan_id := scan_id
    service_name := service.service_name
    service_version := service.version
    port := service.port
    protocol := service.protocol
    description := vd.description
    severity := vd.severity
    status := "open"
    cve_id := none
    cvss_score := none
    recommendation := none
    remediation_commands := none }

/-- Python truthiness of the nullable numeric score column: `None` and `0.0`
are falsy. -/
def score_truthy : Option Rat → Bool
  | none => false
  | some s => !(s == 0)

/-- Python truthiness of a nullable text column: `None` and `""` are falsy. -/
def text_truthy : Option String → Bool
  | none => false
  | some s => !(s == "")

/-- Embedding of `ScanService._enhance_vulnerability_with_cve`.  `cve_info`
is `none` when `lookup_cve` returned `None` or raised; the code then nulls
both CVE fields.  A returned dictionary with a falsy `no_cve_found` flag
updates the identifier and score unconditionally and overwrites the severity
exactly when the severity entry is truthy (a non-empty string). -/
def enhance_vulnerability_with_cve (v : Vulnerability)
    (cve_info : Option CveResult) : Vulnerability :=
  match cve_info with
  | some info =>
    if info.no_cve_found = false then
      { v with
        cve_id := some info.cve_id
        cvss_score := info.cvss_score
        severity := if info.severity ≠ "" then info.severity else v.severity }
    else
      { v with cve_id := none, cvss_score := none }
  | none => { v with cve_id := none, cvss_score := none }

/-- Outcome of the LLM sub-step as seen by
`_enhance_vulnerability_with_llm`: a returned analysis dictionary, a `None`
return, or an exception escaping the call. -/
inductive LlmOutcome where
  | ok (a : LlmAnalysis)
  | noneReturned
  | raises (msg : String)
deriving Repr, DecidableEq

/-- Embedding of `ScanService._enhance_vulnerability_with_llm`.  The three
source assignments write distinct columns, so they are a single record
update here: recommendation and remediation commands are taken when truthy;
the severity is taken exactly when the analysis severity is truthy AND the
already-stored CVSS score is falsy (`None` or `0.0`).  On an exception the
basic fallback recommendation is substituted when none is set. -/
def enhance_vulnerability_with_llm (v : Vulnerability) (service : ServiceRecord)
    (outcome : LlmOutcome) : Vulnerability :=
  match outcome with
  | .ok a =>
    { v with
      recommendation :=
        if a.recommendation ≠ "" then some a.recommendation else v.recommendation
      remediation_commands :=
        if a.remediation_commands ≠ [] then some a.remediation_commands
        else v.remediation_commands
      severity :=
        if a.severity ≠ "" ∧ score_truthy v.cvss_score = false then a.severity
        else v.severity }
  | .noneReturned => v
  | .raises _ =>
    if text_truthy v.recommendation = false then
      { v with recommendation := some ("Update " ++ service.service_name ++
          " to the latest version and review security configuration") }
    else v

/-- One candidate's enrichment in `_process_scan`: build the record, apply
the external-database step, then the LLM step. -/
def enrich_candidate (scan_id : Nat) (service : ServiceRecord) (vd : VulnCandidate)
    (cve_info : Option CveResult) (llm : LlmOutcome) : Vulnerability :=
  enhance_vulnerability_with_llm
    (enhance_vulnerability_with_cve (mkVulnerability scan_id service vd) cve_info)
    service llm

/-- A concrete NVD item whose first metric block carries the base score
8.0. -/
def highScoreItem : CveItem :=
  { id := "CVE-2011-2523"
    metricsV31 := [{ baseScore := some 8 }]
    metricsV30 := []
    metricsV2 := []
    descriptions := [("en", "backdoor in vsftpd 2.3.4")]
    published := ""
    lastModified := "" }

/-- A concrete NVD item whose first metric block carries the base score
0.0. -/
def zeroScoreItem : CveItem :=
  { id := "CVE-2099-0000"
    metricsV31 := [{ baseScore := some 0 }]
    metricsV30 := []
    metricsV2 := []
    descriptions := [("en", "zero-scored issue")]
    published := ""
    lastModified := "" }

/-- A concrete NVD item carrying no CVSS metric blocks at all. -/
def noMetricsItem : CveItem :=
  { id := "CVE-2015-1234"
    metricsV31 := []
    metricsV30 := []
    metricsV2 := []
    descriptions := [("en", "legacy item without metrics")]
    published := ""
    lastModified := "" }

/-- A concrete successful LLM analysis judging the issue High. -/
def highLlmAnalysis : LlmAnalysis :=
  { severity := "High"
    risk_score := some 8
    recommendation := "Apply the vendor patch"
    remediation_commands := []
    business_impact := ""
    technical_details := ""
    patch_priority := "High"
    estimated_effort := ""
    prerequisites := [] }

/-! ## Progress channel delivery (services/websocket_service.py,
`ConnectionManager.send_personal_message`)

Connections are identified by numbers; the `fails` oracle says whether
`connection.send_text` raises for a given connection during this delivery
(the code treats such a connection as dead). -/

/-- The delivery loop of `send_personal_message`: attempt delivery to every
connection in order, collecting the successful receivers and the
`disconnected_connections` set of failures. -/
def deliver_loop (fails : Nat → Bool) : List Nat → (List Nat × List Nat)
  | [] => ([], [])
  | c :: cs =>
    let r := deliver_loop fails cs
    if fails c then (r.1, c :: r.2) else (c :: r.1, r.2)

/-- Embedding of `ConnectionManager.send_personal_message` for one owner:
`none` models an owner with no registry entry (the early return).  Returns
the connections the message reached and the registry entry after every
failed connection has been discarded. -/
def send_personal_message (fails : Nat → Bool) (conns : Option (List Nat)) :
    List Nat × Option (List Nat) :=
  match conns with
  | none => ([], none)
  | some cs =>
    let r := deliver_loop fails cs
    (r.1, some (cs.filter (fun c => !r.2.contains c)))

/-! ## Caching in the external-database lookup (cve_service.py `lookup_cve`,
cache_service.py class CVECache)

The cache is keyed by (service name, version, product); each entry stores a
wrapper dictionary whose `data` entry is the lookup result, which is what
`get_cve_data` hands back, so entries are modelled as the result directly.
Both calls of the claim happen inside one 24-hour freshness window, so entry
expiry stays outside the embedding.  The network oracle maps a search term to
the parsed top result of `_search_cves` for the fixed version of the lookup,
or `none` on HTTP failure, timeout or an empty result set. -/

/-- The cache contents: newest entry first, as `set_cve_data` overwrites. -/
abbrev CveCache := List ((String × String × String) × CveResult)

/-- Embedding of `CVECache.get_cve_data` composed with key generation. -/
def get_cve_data (cache : CveCache) (service_name version product : String) :
    Option CveResult :=
  cache.lookup (service_name, version, product)

/-- Embedding of `CVECache.set_cve_data` composed with key generation. -/
def set_cve_data (cache : CveCache) (service_name version product : String)
    (d : CveResult) : CveCache :=
  ((service_name, version, product), d) :: cache

/-- The static alias table `service_mapping` of `lookup_cve`. -/
def service_mapping : List (String × List String) :=
  [ ("ssh", ["OpenSSH", "SSH"]),
    ("mysql", ["MySQL", "MariaDB"]),
    ("ftp", ["vsftpd", "ProFTPD", "Pure-FTPd", "FTP"]),
    ("http", ["Apache", "nginx", "IIS"]),
    ("https", ["Apache", "nginx", "IIS"]),
    ("smtp", ["Postfix", "Exim", "Sendmail"]),
    ("pop3", ["Dovecot", "Courier"]),
    ("imap", ["Dovecot", "Courier"]),
    ("telnet", ["Telnet"]),
    ("snmp", ["SNMP"]),
    ("dns", ["BIND", "dnsmasq"]),
    ("ntp", ["NTP", "chrony"]) ]

/-- The prioritized search terms of `lookup_cve`: the alias entries for the
lower-cased service name, the raw service name, then the product when
non-empty. -/
def search_terms (service_name product : String) : List String :=
  ((service_mapping.lookup (pyLower service_name)).getD []) ++
  [service_name] ++ (if product ≠ "" then [product] else [])

/-- The term loop of `lookup_cve`: issue one network search per term until a
term returns data.  Returns the result and the number of network searches
issued. -/
def try_search (net : String → Option CveResult) :
    List String → Option CveResult × Nat
  | [] => (none, 0)
  | t :: ts =>
    match net t with
    | some d => (some d, 1)
    | none =>
      let r := try_search net ts
      (r.1, r.2 + 1)

/-- The network path of `lookup_cve`: run the term loop and write back only
a found result. -/
def lookup_cve_network (net : String → Option CveResult) (cache : CveCache)
    (service_name version product : String) :
    Option CveResult × CveCache × Nat :=
  match try_search net (search_terms service_name product) with
  | (some d, n) => (some d, set_cve_data cache service_name version product d, n)
  | (none, n) => (none, cache, n)

/-- Embedding of `CVEService.lookup_cve`: a cache hit that is not the
negative sentinel short-circuits the network; otherwise the term loop runs
and only a found result is written back to the cache.  Returns the result,
the cache afterwards and the number of network searches issued. -/
def lookup_cve (net : String → Option CveResult) (cache : CveCache)
    (service_name version product : String) :
    Option CveResult × CveCache × Nat :=
  match get_cve_data cache service_name version product with
  | some d =>
    if d.no_cve_found = false then (some d, cache, 0)
    else lookup_cve_network net cache service_name version product
  | none => lookup_cve_network net cache service_name version product

/-- A concrete network oracle that answers only the `OpenSSH` search term. -/
def sample_net (t : String) : Option CveResult :=
  if t == "OpenSSH" then some (parse_cve_data highScoreItem) else none

/-! ## Upload boundary (api/v1/endpoints/scans.py, `upload_scan`) -/

/-- Continuation-byte test for UTF-8: `0x80` to `0xBF`. -/
def utf8Cont (c : Nat) : Bool := 0x80 ≤ c && c ≤ 0xBF

/-- Strict UTF-8 validity of a byte sequence, the condition under which
Python `bytes.decode("utf-8")` succeeds rather than raising
`UnicodeDecodeError`: well-formed multi-byte sequences, no overlong forms,
no surrogates, nothing above U+10FFFF. -/
def utf8Decodable : List Nat → Bool
  | [] => true
  | b :: rest =>
    if b ≤ 0x7F then utf8Decodable rest
    else if 0xC2 ≤ b && b ≤ 0xDF then
      match rest with
      | c1 :: rest2 => utf8Cont c1 && utf8Decodable rest2
      | [] => false
    else if b == 0xE0 then
      match rest with
      | c1 :: c2 :: rest2 =>
        (0xA0 ≤ c1 && c1 ≤ 0xBF) && utf8Cont c2 && utf8Decodable rest2
      | _ => false
    else if (0xE1 ≤ b && b ≤ 0xEC) || (0xEE ≤ b && b ≤ 0xEF) then
      match rest with
      | c1 :: c2 :: rest2 => utf8Cont c1 && utf8Cont c2 && utf8Decodable rest2
      | _ => false
    else if b == 0xED then
      match rest with
      | c1 :: c2 :: rest2 =>
        (0x80 ≤ c1 && c1 ≤ 0x9F) && utf8Cont c2 && utf8Decodable rest2
      | _ => false
    else if b == 0xF0 then
      match rest with
      | c1 :: c2 :: c3 :: rest2 =>
        (0x90 ≤ c1 && c1 ≤ 0xBF) && utf8Cont c2 && utf8Cont c3 &&
          utf8Decodable rest2
      | _ => false
    else if 0xF1 ≤ b && b ≤ 0xF3 then
      match rest with
      | c1 :: c2 :: c3 :: rest2 =>
        utf8Cont c1 && utf8Cont c2 && utf8Cont c3 && utf8Decodable rest2
      | _ => false
    else if b == 0xF4 then
      match rest with
      | c1 :: c2 :: c3 :: rest2 =>
        (0x80 ≤ c1 && c1 ≤ 0x8F) && utf8Cont c2 && utf8Cont c3 &&
          utf8Decodable rest2
      | _ => false
    else false

/-- The HTTP-level outcome of the endpoint: an `HTTPException` with status
code and detail, or the created scan response (by id). -/
inductive UploadResult where
  | rejected (statusCode : Nat) (detail : String)
  | accepted (scan_id : Nat)
deriving Repr, DecidableEq

/-- Observable effects of one `upload_scan` call: the HTTP result, whether
`file.read()` was reached, and whether a scan job record was created. -/
structure UploadOutcome where
  result : UploadResult
  content_read : Bool
  job_created : Bool
deriving Repr, DecidableEq

/-- Outcome of `ScanService.create_scan` once it is invoked: the created
scan id, or an exception (carrying whether the scan record had already been
persisted when it was raised). -/
inductive ProcessOutcome where
  | ok (scan_id : Nat)
  | fails (msg : String) (job_persisted : Bool)
deriving Repr, DecidableEq

/-- The `file.size and file.size > settings.MAX_FILE_SIZE` test: a declared
size of `None` or `0` is falsy and skips the check. -/
def size_check (declared_size : Option Nat) (max_file_size : Nat) : Bool :=
  match declared_size with
  | none => false
  | some s => (!(s == 0)) && decide (s > max_file_size)

/-- Embedding of the `upload_scan` endpoint: filename check, then declared-
size check, then read and UTF-8 decode, then `create_scan`; a
`UnicodeDecodeError` is answered with 400 and any other exception from
processing with 500. -/
def upload_scan (max_file_size : Nat) (filename : String)
    (declared_size : Option Nat) (content : List Nat)
    (processing : ProcessOutcome) : UploadOutcome :=
  if pyEndsWith filename ".xml" = false then
    { result := .rejected 400 "Only XML files are allowed"
      content_read := false
      job_created := false }
  else if size_check declared_size max_file_size then
    { result := .rejected 413 "File size exceeds maximum allowed size"
      content_read := false
      job_created := false }
  else if utf8Decodable content = false then
    { result := .rejected 400
        "Invalid file encoding. Please ensure the file is UTF-8 encoded."
      content_read := true
      job_created := false }
  else
    match processing with
    | .ok scan_id =>
      { result := .accepted scan_id
        content_read := true
        job_created := true }
    | .fails msg persisted =>
      { result := .rejected 500 ("Error processing file: " ++ msg)
        content_read := true
        job_created := persisted }

/-- A result is a rejection when it is an `HTTPException`. -/
def isRejected : UploadResult → Bool
  | .rejected _ _ => true
  | .accepted _ => false

/-! ## Progress event sequence of one job (scan_service.py `create_scan` and
`_process_scan`, websocket_service.py)

The per-service percentage is Python `int(30 + 40*(idx+1)/total)` over IEEE
doubles; for these nonnegative values that is `30 + (40*(idx+1)) / total`
with integer floor division, which is how it is embedded (double division is
monotone, so the ordering facts proved below are unaffected).  The events
listed are those `update_scan_progress`, `notify_scan_complete` and
`notify_critical_vulnerability` deliver to the connections of the owner; a
subscriber that stays live receives exactly this sequence. -/

/-- The result summary computed at the end of `_process_scan` and sent with
the completion notification. -/
structure ScanResults where
  total_vulnerabilities : Nat
  critical_count : Nat
  high_count : Nat
  medium_count : Nat
  low_count : Nat
  services_analyzed : Nat
deriving Repr, DecidableEq

/-- One message published to the owner during a job: staged progress
(percentage, status, text), the completion notification carrying the result
summary, the dashboard-refresh ping sent right after it, and one alert per
Critical finding.  The `scan_complete` message itself carries no progress
percentage. -/
inductive ProgressEvent where
  | progress (pct : Nat) (status : String) (message : String)
  | complete (results : ScanResults)
  | dashboardRefresh
  | criticalAlert
deriving Repr, DecidableEq

/-- The analyzing-stage events of `_process_scan`, one per service, the
percentage scaled from 30 towards 70. -/
def analyzing_events (names : List String) : List ProgressEvent :=
  (List.range names.length).map (fun idx =>
    .progress (30 + (40 * (idx + 1)) / names.length) "analyzing"
      ("Analyzing service " ++ toString (idx + 1) ++ "/" ++
        toString names.length ++ ": " ++ names.getD idx "unknown"))

/-- One ingestion run as the orchestrator sees it: the uploaded filename,
the parse outcome (the `ValueError` text or the parse result), the optional
exception escaping the final save/commit, and the result summary computed
from the enriched records (whose critical count drives the alert fan-out). -/
structure JobRun where
  filename : String
  parse : Except String ParsedScan
  commit_fails : Option String
  results : ScanResults

/-- The events of `_process_scan` up to and including the saving stage. -/
def pre_events (parsed : ParsedScan) : List ProgressEvent :=
  [.progress 10 "parsing" "Parsing XML file...",
   .progress 30 "extracting" "Extracting vulnerabilities..."] ++
  analyzing_events (parsed.services.map (fun s => s.service_name)) ++
  [.progress 80 "saving" "Saving scan results..."]

/-- The events `_process_scan` publishes, with the exception it lets escape,
if any: a parse failure raises right after the 10-percent event; a commit
failure raises after the 80-percent event; otherwise the completion
notification, the dashboard refresh and the critical alerts follow. -/
def process_scan_events (run : JobRun) : List ProgressEvent × Option String :=
  match run.parse with
  | .error e => ([.progress 10 "parsing" "Parsing XML file..."], some e)
  | .ok parsed =>
    match run.commit_fails with
    | some e => (pre_events parsed, some e)
    | none =>
      (pre_events parsed ++ [.complete run.results, .dashboardRefresh] ++
        List.replicate run.results.critical_count .criticalAlert, none)

/-- Embedding of `create_scan`: the initial started event, the events of
`_process_scan`, and — when an exception escapes — the failure notification,
which is an `update_scan_progress` call with progress hard-coded to 0. -/
def create_scan_events (run : JobRun) : List ProgressEvent :=
  (.progress 0 "started" ("Processing scan: " ++ run.filename)) ::
  (match process_scan_events run with
   | (evs, none) => evs
   | (evs, some e) =>
     evs ++ [.progress 0 "failed" ("Scan processing failed: " ++ e)])

/-- The progress percentages carried by a delivered event sequence. -/
def progress_values (evs : List ProgressEvent) : List Nat :=
  evs.filterMap (fun e => match e with
    | .progress p _ _ => some p
    | _ => none)

/-- An event carrying a result summary or an error: the completion
notification, or the failure notification (status `failed`, carrying the
error text). -/
def carries_result_or_error : ProgressEvent → Bool
  | .complete _ => true
  | .progress _ st _ => st == "failed"
  | _ => false

/-- A concrete scan document: one host with one open ftp port. -/
def sampleRoot : NmapRoot :=
  { scanner := some "nmap"
    version := some "7.80"
    start := some "0"
    args := none
    runstats_finished := none
    hosts := [{ status := some (some "up")
                addresses := [{ addr := some "10.0.0.5", addrtype := some "ipv4" }]
                hostnames := []
                ports := [{ portid := some 21
                            protocol := some "tcp"
                            state := some "open"
                            service := some { name := some "ftp"
                                              product := some "vsftpd"
                                              version := some "2.3.4"
                                              extrainfo := none
                                              method := none
                                              conf := none }
                            scripts := [] }] }] }

/-- A concrete successful run over `sampleRoot`. -/
def successRun : JobRun :=
  { filename := "scan.xml"
    parse := Except.ok (parse_xml_file sampleRoot)
    commit_fails := none
    results := { total_vulnerabilities := 1
                 critical_count := 1
                 high_count := 0
                 medium_count := 0
                 low_count := 0
                 services_analyzed := 1 } }

/-- A concrete run whose parse step raises after the 10-percent event. -/
def parseFailRun : JobRun :=
  { filename := "scan.xml"
    parse := Except.error "Invalid XML format: syntax error"
    commit_fails := none
    results := { total_vulnerabilities := 0
                 critical_count := 0
                 high_count := 0
                 medium_count := 0
                 low_count := 0
                 services_analyzed := 0 } }

/-! ## Theorems -/

theorem extract_port_info_eq (p : PortElem) :
    extract_port_info p = if openPort p then some (portDataOf p) else none := by
  simp only [extract_port_info, openPort, portDataOf, beq_iff_eq]

theorem filterMap_guard {α β : Type} (c : α → Bool) (g : α → β) (l : List α) :
    l.filterMap (fun a => if c a then some (g a) else none) = (l.filter c).map g := by
  induction l with
  | nil => rfl
  | cons a t ih => cases h : c a <;> simp [h, ih]

theorem ports_filterMap_eq (ports : List PortElem) :
    ports.filterMap extract_port_info = (ports.filter openPort).map portDataOf := by
  have h : extract_port_info = fun p => if openPort p then some (portDataOf p) else none :=
    funext extract_port_info_eq
  rw [h, filterMap_guard]

/-- C2: on every well-formed document, the flat service list of the parse
result has exactly one entry per port whose state attribute is `"open"` (in
document order, carrying that port's data), and every port in any other state
(closed, filtered, or with the state missing) contributes no entry; in
particular every produced entry records state `"open"`. -/
theorem c2_parse_services_exactly_open_ports (root : NmapRoot) :
    (parse_xml_file root).services =
      root.hosts.flatMap (fun h =>
        (h.ports.filter openPort).map (fun p =>
          serviceDataOf (hostIpOfAddrs h.addresses) (portDataOf p))) ∧
    ∀ s ∈ (parse_xml_file root).services, s.state = "open" := by
  have hmain : (parse_xml_file root).services =
      root.hosts.flatMap (fun h =>
        (h.ports.filter openPort).map (fun p =>
          serviceDataOf (hostIpOfAddrs h.addresses) (portDataOf p))) := by
    show extract_services (root.hosts.map extract_host) = _
    induction root.hosts with
    | nil => rfl
    | cons h t ih =>
      simp only [List.map_cons, List.flatMap_cons, extract_services] at ih ⊢
      rw [ih]
      simp only [extract_host, ports_filterMap_eq, List.map_map]
      rfl
  refine ⟨hmain, ?_⟩
  intro s hs
  rw [hmain] at hs
  rcases List.mem_flatMap.mp hs with ⟨h, _, hmem⟩
  rcases List.mem_map.mp hmem with ⟨p, hp, rfl⟩
  rcases List.mem_filter.mp hp with ⟨_, hopen⟩
  have hstate : (p.state.getD "") = "open" := by
    simpa [openPort] using hopen
  simpa [serviceDataOf, serviceRecordOf, portDataOf] using hstate

/-- C5 counterexample: for the service with name `ftp`, product
`vsftpd 2.3.4` and an empty version attribute, the table entry for `ftp`
exists and its vulnerable-version substring is contained case-insensitively in
the string built from product and version, so the claim requires an
`outdated_version` candidate; the extractor emits none, because the substring
check is guarded by `elif version:` and is skipped for an empty version. -/
theorem c5_empty_version_counterexample :
    vulnerable_patterns.lookup (pyLower ftpNoVersionService.service_name) =
      some (["vsftpd 2.3.4"], "Critical") ∧
    inStrCI "vsftpd 2.3.4"
      (ftpNoVersionService.product ++ " " ++ ftpNoVersionService.version) = true ∧
    identify_vulnerabilities ftpNoVersionService = [] := by
  refine ⟨by decide, by decide, by decide⟩

/-- C5 amended: for every service whose lower-cased service name is a key of
the static vulnerable-pattern table, the extractor emits an
`outdated_version` candidate with the table entry's severity if and only if
the entry contains the wildcard `"*"`, or the version field is NON-EMPTY and
some vulnerable-version substring of the entry is contained
case-insensitively in the string built from product and version; when the
version field is empty, only the wildcard can fire. -/
theorem version_match_iff (s : ServiceRecord) (versions : List String) :
    version_match s versions = true ↔
      ("*" ∈ versions ∨
        (s.version ≠ "" ∧
          versions.any (fun v => inStrCI v (s.product ++ " " ++ s.version)) = true)) := by
  by_cases h1 : "*" ∈ versions <;> by_cases h2 : s.version = "" <;>
    simp [version_match, h1, h2]

theorem identify_vulnerabilities_of_lookup (s : ServiceRecord)
    (versions : List String) (sev : String)
    (hlook : vulnerable_patterns.lookup (pyLower s.service_name) = some (versions, sev)) :
    identify_vulnerabilities s =
      (if version_match s versions then [outdated_candidate s sev] else []) ++
        s.scripts.filterMap (fun sc =>
          if inStr "vuln" sc.id || inStr "cve" sc.id then some (script_candidate sc)
          else none) := by
  unfold identify_vulnerabilities
  rw [hlook]

theorem mem_script_candidates_vtype (s : ServiceRecord) (c : VulnCandidate)
    (hc : c ∈ s.scripts.filterMap (fun sc =>
      if inStr "vuln" sc.id || inStr "cve" sc.id then some (script_candidate sc)
      else none)) :
    c.vtype = "script_detection" := by
  rcases List.mem_filterMap.mp hc with ⟨sc, _, hsc⟩
  by_cases hcond : (inStr "vuln" sc.id || inStr "cve" sc.id) = true
  · rw [if_pos hcond] at hsc
    cases hsc
    rfl
  · rw [if_neg hcond] at hsc
    cases hsc

/-- C5 amended: for every service whose lower-cased service name is a key of
the static vulnerable-pattern table, the extractor emits an
`outdated_version` candidate with the table entry's severity if and only if
the entry contains the wildcard `"*"`, or the version field is NON-EMPTY and
some vulnerable-version substring of the entry is contained
case-insensitively in the string built from product and version; when the
version field is empty, only the wildcard can fire. -/
theorem c5_pattern_match_amended (s : ServiceRecord) (versions : List String) (sev : String)
    (hlook : vulnerable_patterns.lookup (pyLower s.service_name) = some (versions, sev)) :
    (∃ c ∈ identify_vulnerabilities s, c.vtype = "outdated_version" ∧ c.severity = sev) ↔
      ("*" ∈ versions ∨
        (s.version ≠ "" ∧
          versions.any (fun v => inStrCI v (s.product ++ " " ++ s.version)) = true)) := by
  rw [identify_vulnerabilities_of_lookup s versions sev hlook, ← version_match_iff]
  constructor
  · rintro ⟨c, hc, htype, hsev⟩
    rcases List.mem_append.mp hc with hin | hin
    · by_cases hv : version_match s versions = true
      · exact hv
      · rw [if_neg hv] at hin
        cases hin
    · exact absurd (mem_script_candidates_vtype s c hin) (by rw [htype]; decide)
  · intro hv
    refine ⟨outdated_candidate s sev, List.mem_append_left _ ?_, rfl, rfl⟩
    rw [if_pos hv]
    exact List.mem_singleton.mpr rfl

/-- C5 amended, witness: the amended equivalence evaluated on the concrete
`vsftpd 2.3.4` service with a non-empty version attribute. -/
theorem c5_pattern_match_amended_witness :
    ∃ c ∈ identify_vulnerabilities ftpVersionedService,
      c.vtype = "outdated_version" ∧ c.severity = "Critical" := by
  exact (c5_pattern_match_amended ftpVersionedService
    ["vsftpd 2.3.4"] "Critical" (by decide)).mpr (by decide)

theorem llm_preserves_cvss_score (v : Vulnerability) (service : ServiceRecord)
    (o : LlmOutcome) :
    (enhance_vulnerability_with_llm v service o).cvss_score = v.cvss_score := by
  cases o with
  | ok a => rfl
  | noneReturned => rfl
  | raises m =>
    by_cases h : text_truthy v.recommendation = false <;>
      simp [enhance_vulnerability_with_llm, h]

theorem llm_preserves_severity_of_truthy_score (v : Vulnerability)
    (service : ServiceRecord) (o : LlmOutcome)
    (h : score_truthy v.cvss_score = true) :
    (enhance_vulnerability_with_llm v service o).severity = v.severity := by
  cases o with
  | ok a => simp [enhance_vulnerability_with_llm, h]
  | noneReturned => rfl
  | raises m =>
    by_cases h2 : text_truthy v.recommendation = false <;>
      simp [enhance_vulnerability_with_llm, h2]

theorem parsed_severity_of_score (item : CveItem) (s : Rat)
    (hs : parsed_score item = some s) (hz : s ≠ 0) :
    parsed_severity item = severity_of_score s := by
  unfold parsed_severity
  unfold parsed_score at hs
  cases hfm : first_metric item with
  | none => simp [hfm] at hs
  | some m =>
    simp only [hfm] at hs ⊢
    rw [hs]
    simp [hz]

theorem severity_of_score_ne_empty (s : Rat) : severity_of_score s ≠ "" := by
  unfold severity_of_score
  by_cases h9 : s ≥ 9 <;> by_cases h7 : s ≥ 7 <;> by_cases h4 : s ≥ 4 <;>
    simp [h9, h7, h4]

theorem parse_cve_data_score (item : CveItem) :
    (parse_cve_data item).cvss_score = parsed_score item := rfl

theorem parse_cve_data_severity (item : CveItem) :
    (parse_cve_data item).severity = parsed_severity item := rfl

theorem parsed_severity_ne_empty (item : CveItem) : parsed_severity item ≠ "" := by
  unfold parsed_severity
  cases first_metric item with
  | none => simp
  | some m =>
    cases hbs : m.baseScore with
    | none => simp [hbs]
    | some s =>
      simp only [hbs]
      by_cases hz : s = 0
      · simp [hz]
      · simp [hz, severity_of_score_ne_empty s]

theorem cve_enhanced_fields (v : Vulnerability) (info : CveResult)
    (hno : info.no_cve_found = false) :
    (enhance_vulnerability_with_cve v (some info)).cvss_score = info.cvss_score ∧
    (enhance_vulnerability_with_cve v (some info)).severity =
      (if info.severity ≠ "" then info.severity else v.severity) ∧
    (enhance_vulnerability_with_cve v (some info)).recommendation =
      v.recommendation := by
  simp [enhance_vulnerability_with_cve, hno]

/-- C1 amended: for every persisted `Vulnerability` whose numeric CVSS score
is non-null AND non-zero, the categorical severity equals the bucket mapping
(at least 9.0 Critical, at least 7.0 High, at least 4.0 Medium, else Low).
A score of exactly 0.0 is excluded: the parsing step treats a falsy score as
absent (`if cvss_score:`), leaves severity `Unknown`, and the LLM severity is
then allowed to override because `not vulnerability.cvss_score` is true for
`0.0`.  When the score is null the bucket correction likewise does not
apply. -/
theorem c1_severity_consistency_amended (scan_id : Nat) (service : ServiceRecord)
    (vd : VulnCandidate) (item : Option CveItem) (llm : LlmOutcome) (s : Rat)
    (hfinal : (enrich_candidate scan_id service vd (item.map parse_cve_data)
      llm).cvss_score = some s)
    (hz : s ≠ 0) :
    (enrich_candidate scan_id service vd (item.map parse_cve_data) llm).severity =
      severity_of_score s := by
  cases item with
  | none =>
    rw [enrich_candidate, llm_preserves_cvss_score] at hfinal
    simp [enhance_vulnerability_with_cve] at hfinal
  | some i =>
    have hpar : (parse_cve_data i).no_cve_found = false := rfl
    have hscore : (enhance_vulnerability_with_cve
        (mkVulnerability scan_id service vd) (some (parse_cve_data i))).cvss_score =
        parsed_score i :=
      (cve_enhanced_fields _ _ hpar).1
    rw [Option.map_some', enrich_candidate, llm_preserves_cvss_score, hscore] at hfinal
    have hsev := parsed_severity_of_score i s hfinal hz
    have hst : score_truthy (enhance_vulnerability_with_cve
        (mkVulnerability scan_id service vd) (some (parse_cve_data i))).cvss_score =
        true := by
      rw [hscore, hfinal]
      simp [score_truthy, hz]
    rw [Option.map_some', enrich_candidate,
      llm_preserves_severity_of_truthy_score _ _ _ hst]
    have hne : (parse_cve_data i).severity ≠ "" := by
      show parsed_severity i ≠ ""
      exact parsed_severity_ne_empty i
    rw [(cve_enhanced_fields _ _ hpar).2.1, if_pos hne]
    exact hsev

/-- C1 amended, witness: the amended bucket consistency evaluated on the
concrete enrichment of the vsftpd service with a 7.5-scored item. -/
theorem c1_severity_consistency_amended_witness :
    (enrich_candidate 1 ftpVersionedService
      (outdated_candidate ftpVersionedService "Critical")
      ((some highScoreItem).map parse_cve_data)
      (.ok (fallback_analysis "ftp" "2.3.4" "d"))).severity =
      severity_of_score 8 := by
  exact c1_severity_consistency_amended 1 ftpVersionedService
    (outdated_candidate ftpVersionedService "Critical") (some highScoreItem)
    (.ok (fallback_analysis "ftp" "2.3.4" "d")) 8
    (by decide) (by decide)

/-- C1 counterexample: enriching the vsftpd candidate with an item scored
exactly 0.0 persists a record whose score is non-null (0.0) while its
severity is the LLM fallback `Medium`, not the bucket value `Low` the claim
requires at a score of 0.0. -/
theorem c1_zero_score_counterexample :
    (enrich_candidate 1 ftpVersionedService
      (outdated_candidate ftpVersionedService "Critical")
      ((some zeroScoreItem).map parse_cve_data)
      (.ok (fallback_analysis "ftp" "2.3.4" "d"))).cvss_score = some 0 ∧
    (enrich_candidate 1 ftpVersionedService
      (outdated_candidate ftpVersionedService "Critical")
      ((some zeroScoreItem).map parse_cve_data)
      (.ok (fallback_analysis "ftp" "2.3.4" "d"))).severity = "Medium" ∧
    severity_of_score 0 = "Low" := by
  refine ⟨by decide, by decide, by decide⟩

/-- C3 amended: when both sub-steps produce output, the final severity is
the database severity exactly when the database score is truthy (non-null
and non-zero); otherwise the LLM severity when that is truthy, else the
database severity string (`Unknown`).  The recommendation is the LLM one
when truthy, else null: the database recommendation never exists and the
LLM numeric risk score is never persisted to the CVSS column. -/
theorem c3_merge_policy_amended (scan_id : Nat) (service : ServiceRecord)
    (vd : VulnCandidate) (item : CveItem) (a : LlmAnalysis) :
    (enrich_candidate scan_id service vd (some (parse_cve_data item))
        (.ok a)).severity =
      (if score_truthy (parsed_score item) = true then parsed_severity item
       else if a.severity ≠ "" then a.severity
       else parsed_severity item) ∧
    (enrich_candidate scan_id service vd (some (parse_cve_data item))
        (.ok a)).recommendation =
      (if a.recommendation ≠ "" then some a.recommendation else none) := by
  have hpar : (parse_cve_data item).no_cve_found = false := rfl
  have hflds := cve_enhanced_fields (mkVulnerability scan_id service vd) _ hpar
  have hne : (parse_cve_data item).severity ≠ "" := by
    rw [parse_cve_data_severity]
    exact parsed_severity_ne_empty item
  have hcv : (enhance_vulnerability_with_cve (mkVulnerability scan_id service vd)
      (some (parse_cve_data item))).cvss_score = parsed_score item := by
    rw [hflds.1, parse_cve_data_score]
  have hsevcv : (enhance_vulnerability_with_cve (mkVulnerability scan_id service vd)
      (some (parse_cve_data item))).severity = parsed_severity item := by
    rw [hflds.2.1, if_pos hne, parse_cve_data_severity]
  constructor
  · rw [enrich_candidate]
    by_cases ht : score_truthy (parsed_score item) = true
    · have hst : score_truthy (enhance_vulnerability_with_cve
          (mkVulnerability scan_id service vd)
          (some (parse_cve_data item))).cvss_score = true := by
        rw [hcv]
        exact ht
      rw [llm_preserves_severity_of_truthy_score _ _ _ hst, hsevcv, if_pos ht]
    · have hf : score_truthy (parsed_score item) = false := by
        revert ht
        cases score_truthy (parsed_score item) <;> simp
      rw [if_neg ht]
      by_cases ha : a.severity ≠ ""
      · rw [if_pos ha]
        simp [enhance_vulnerability_with_llm, ha, hcv, hf]
      · rw [if_neg ha]
        simp [enhance_vulnerability_with_llm, ha, hsevcv]
  · rw [enrich_candidate]
    by_cases hr : a.recommendation ≠ ""
    · simp [enhance_vulnerability_with_llm, hr]
    · have hrec : (enhance_vulnerability_with_cve (mkVulnerability scan_id service vd)
          (some (parse_cve_data item))).recommendation = none := by
        rw [hflds.2.2]
        rfl
      simp [enhance_vulnerability_with_llm, hr, hrec]

/-- C3 counterexample: for an NVD item without metric blocks the database
lookup produces the severity string `Unknown` (truthy, and the CVE step does
write it to the record), yet the final severity is the LLM severity `High`:
the database severity does not override the LLM severity, because the
override is gated on the numeric score, which is absent here. -/
theorem c3_unknown_severity_counterexample :
    (parse_cve_data noMetricsItem).severity = "Unknown" ∧
    (parse_cve_data noMetricsItem).cvss_score = none ∧
    (enrich_candidate 1 ftpVersionedService
      (outdated_candidate ftpVersionedService "Critical")
      (some (parse_cve_data noMetricsItem)) (.ok highLlmAnalysis)).severity =
      "High" := by
  refine ⟨by decide, by decide, by decide⟩

/-- C4: whenever the Gemini client is unconfigured (no credential) or the
analysis call raises, `analyze_vulnerability` returns the deterministic
fallback — severity `Medium`, risk score 5.0, the generic
update-to-latest-version recommendation and no remediation commands — as a
value rather than an error, so the enrichment never fails the job. -/
theorem c4_llm_unavailable_fallback (backend : LlmBackend)
    (service_name version : String) (port : Nat) (descr : String)
    (cve_id : Option String)
    (h : backend = .unavailable ∨ ∃ m, backend = .errors m) :
    analyze_vulnerability backend service_name version port descr cve_id =
      some (fallback_analysis service_name version descr) ∧
    (fallback_analysis service_name version descr).severity = "Medium" ∧
    (fallback_analysis service_name version descr).risk_score = some 5 ∧
    (fallback_analysis service_name version descr).remediation_commands = [] ∧
    (fallback_analysis service_name version descr).recommendation =
      "Update " ++ service_name ++
        " to the latest version and review security configuration" := by
  rcases h with h | ⟨m, h⟩ <;> subst h <;> exact ⟨rfl, rfl, rfl, rfl, rfl⟩

theorem deliver_loop_fst (fails : Nat → Bool) (cs : List Nat) :
    (deliver_loop fails cs).1 = cs.filter (fun c => !fails c) := by
  induction cs with
  | nil => rfl
  | cons c t ih => cases h : fails c <;> simp [deliver_loop, h, ih]

theorem deliver_loop_snd (fails : Nat → Bool) (cs : List Nat) :
    (deliver_loop fails cs).2 = cs.filter fails := by
  induction cs with
  | nil => rfl
  | cons c t ih => cases h : fails c <;> simp [deliver_loop, h, ih]

/-- C7: when delivery to some connections fails, every other live connection
of the owner still receives the event, every failing connection is removed
from the registry, and every non-failing connection stays registered — the
delivery loop visits all connections regardless of earlier failures, and the
exceptions are absorbed inside the loop (the function is total), so job
execution is unaffected. -/
theorem c7_failing_connection_isolated (fails : Nat → Bool) (cs : List Nat)
    (c : Nat) (hc : c ∈ cs) :
    (fails c = false → c ∈ (send_personal_message fails (some cs)).1) ∧
    (∀ r, (send_personal_message fails (some cs)).2 = some r →
      ((fails c = true → c ∉ r) ∧ (fails c = false → c ∈ r))) := by
  constructor
  · intro hok
    show c ∈ (deliver_loop fails cs).1
    rw [deliver_loop_fst]
    exact List.mem_filter.mpr ⟨hc, by simp [hok]⟩
  · intro r hr
    have hr2 : r = cs.filter (fun x => !(deliver_loop fails cs).2.contains x) := by
      simpa [send_personal_message] using hr.symm
    subst hr2
    constructor
    · intro hfail hmem
      have hcond := (List.mem_filter.mp hmem).2
      rw [deliver_loop_snd] at hcond
      simp at hcond
      rcases hcond with h | h
      · exact h hc
      · rw [hfail] at h
        cases h
    · intro hok
      refine List.mem_filter.mpr ⟨hc, ?_⟩
      rw [deliver_loop_snd]
      simp
      exact Or.inr hok

/-- C7 witness: delivery over three concrete connections of which the middle
one fails — the other two receive the event and stay registered, the failing
one is dropped. -/
theorem c7_failing_connection_isolated_witness :
    (((fun c => c == 2) 1 = false →
      1 ∈ (send_personal_message (fun c => c == 2) (some [1, 2, 3])).1) ∧
    (∀ r, (send_personal_message (fun c => c == 2) (some [1, 2, 3])).2 = some r →
      (((fun c => c == 2) 1 = true → 1 ∉ r) ∧
       ((fun c => c == 2) 1 = false → 1 ∈ r)))) ∧
    ∀ r, (send_personal_message (fun c => c == 2) (some [1, 2, 3])).2 = some r →
      ((fun c => c == 2) 2 = true → 2 ∉ r) := by
  refine ⟨c7_failing_connection_isolated (fun c => c == 2) [1, 2, 3] 1 (by decide), ?_⟩
  exact fun r hr h2 =>
    ((c7_failing_connection_isolated (fun c => c == 2) [1, 2, 3] 2
      (by decide)).2 r hr).1 h2

/-- C4 witness: the fallback equalities evaluated for an unconfigured
backend on the concrete ssh service. -/
theorem c4_llm_unavailable_fallback_witness :
    analyze_vulnerability .unavailable "ssh" "7.4" 22 "d" none =
      some (fallback_analysis "ssh" "7.4" "d") ∧
    (fallback_analysis "ssh" "7.4" "d").severity = "Medium" ∧
    (fallback_analysis "ssh" "7.4" "d").risk_score = some 5 ∧
    (fallback_analysis "ssh" "7.4" "d").remediation_commands = [] ∧
    (fallback_analysis "ssh" "7.4" "d").recommendation =
      "Update " ++ "ssh" ++
        " to the latest version and review security configuration" :=
  c4_llm_unavailable_fallback .unavailable "ssh" "7.4" 22 "d" none (Or.inl rfl)

theorem get_set_cve_data (cache : CveCache) (sn v p : String) (d : CveResult) :
    get_cve_data (set_cve_data cache sn v p d) sn v p = some d := by
  simp [get_cve_data, set_cve_data, List.lookup]

theorem lookup_cve_hit (net : String → Option CveResult) (cache : CveCache)
    (sn v p : String) (d : CveResult)
    (hget : get_cve_data cache sn v p = some d) (hflag : d.no_cve_found = false) :
    lookup_cve net cache sn v p = (some d, cache, 0) := by
  unfold lookup_cve
  rw [hget]
  simp [hflag]

theorem lookup_cve_network_found (net : String → Option CveResult)
    (cache : CveCache) (sn v p : String) (d : CveResult) (n : Nat)
    (htr : try_search net (search_terms sn p) = (some d, n)) :
    lookup_cve_network net cache sn v p = (some d, set_cve_data cache sn v p d, n) := by
  unfold lookup_cve_network
  rw [htr]

theorem lookup_cve_network_none (net : String → Option CveResult)
    (cache : CveCache) (sn v p : String) (n : Nat)
    (htr : try_search net (search_terms sn p) = (none, n)) :
    lookup_cve_network net cache sn v p = (none, cache, n) := by
  unfold lookup_cve_network
  rw [htr]

/-- C8 counterexample: with a network oracle that finds nothing, the first
lookup for the ftp service issues five network searches (one per search
term), caches nothing, and an identical second lookup in the same window
issues the same five searches again — so the two enrichment calls issue ten
network calls, not at most one (the outputs do agree: both are empty). -/
theorem c8_no_result_counterexample :
    (lookup_cve (fun _ => none) [] "ftp" "2.3.4" "").2.2 = 5 ∧
    (lookup_cve (fun _ => none)
      (lookup_cve (fun _ => none) [] "ftp" "2.3.4" "").2.1 "ftp" "2.3.4" "").2.2 = 5 ∧
    (lookup_cve (fun _ => none)
      (lookup_cve (fun _ => none) [] "ftp" "2.3.4" "").2.1 "ftp" "2.3.4" "").1 =
      (lookup_cve (fun _ => none) [] "ftp" "2.3.4" "").1 := by
  refine ⟨by decide, by decide, by decide⟩

/-- C8 amended: when the first of two identical enrichment calls inside one
freshness window finds a result, that result is cached, and the second call
issues ZERO network searches, leaves the cache unchanged, and returns the
same output.  When the first call found no results nothing is cached: the
second call repeats the full network search (the counterexample), although
its output still equals the first one under an unchanged oracle. -/
theorem c8_caching_amended (net : String → Option CveResult) (cache : CveCache)
    (service_name version product : String) (d : CveResult)
    (h1 : (lookup_cve net cache service_name version product).1 = some d)
    (hno : d.no_cve_found = false) :
    lookup_cve net (lookup_cve net cache service_name version product).2.1
      service_name version product =
      (some d, (lookup_cve net cache service_name version product).2.1, 0) := by
  rcases htr : try_search net (search_terms service_name product) with ⟨od, n⟩
  cases hget : get_cve_data cache service_name version product with
  | some d0 =>
    by_cases hflag : d0.no_cve_found = false
    · have hfst := lookup_cve_hit net cache service_name version product d0 hget hflag
      rw [hfst] at h1 ⊢
      simp only [Option.some.injEq] at h1
      subst h1
      exact lookup_cve_hit net cache service_name version product d0 hget hflag
    · have hfst : lookup_cve net cache service_name version product =
          lookup_cve_network net cache service_name version product := by
        unfold lookup_cve
        rw [hget]
        simp [hflag]
      rw [hfst] at h1 ⊢
      cases od with
      | none =>
        rw [lookup_cve_network_none net cache service_name version product n htr] at h1
        cases h1
      | some dn =>
        have hnet := lookup_cve_network_found net cache service_name version
          product dn n htr
        rw [hnet] at h1 ⊢
        simp only [Option.some.injEq] at h1
        subst h1
        exact lookup_cve_hit net _ service_name version product dn
          (get_set_cve_data cache service_name version product dn) hno
  | none =>
    have hfst : lookup_cve net cache service_name version product =
        lookup_cve_network net cache service_name version product := by
      unfold lookup_cve
      rw [hget]
    rw [hfst] at h1 ⊢
    cases od with
    | none =>
      rw [lookup_cve_network_none net cache service_name version product n htr] at h1
      cases h1
    | some dn =>
      have hnet := lookup_cve_network_found net cache service_name version
        product dn n htr
      rw [hnet] at h1 ⊢
      simp only [Option.some.injEq] at h1
      subst h1
      exact lookup_cve_hit net _ service_name version product dn
        (get_set_cve_data cache service_name version product dn) hno

/-- C8 amended, witness: the caching equality evaluated on the concrete ssh
lookup against the one-answer network oracle, starting from an empty
cache. -/
theorem c8_caching_amended_witness :
    lookup_cve sample_net (lookup_cve sample_net [] "ssh" "7.4" "").2.1
      "ssh" "7.4" "" =
      (some (parse_cve_data highScoreItem),
        (lookup_cve sample_net [] "ssh" "7.4" "").2.1, 0) := by
  exact c8_caching_amended sample_net [] "ssh" "7.4" ""
    (parse_cve_data highScoreItem) (by decide) (by decide)

/-- C9: any upload whose bytes are not UTF-8-decodable, or whose declared
size exceeds the configured maximum, is rejected with an HTTP error and no
scan job record is created — the stored-job state is untouched by the
rejected request. -/
theorem c9_reject_undecodable_or_oversized (max_file_size : Nat)
    (filename : String) (declared_size : Option Nat) (content : List Nat)
    (processing : ProcessOutcome)
    (h : utf8Decodable content = false ∨
      (∃ s, declared_size = some s ∧ s > max_file_size)) :
    isRejected (upload_scan max_file_size filename declared_size content
      processing).result = true ∧
    (upload_scan max_file_size filename declared_size content
      processing).job_created = false := by
  unfold upload_scan
  by_cases hn : pyEndsWith filename ".xml" = false
  · simp [hn, isRejected]
  · rw [if_neg hn]
    by_cases hs : size_check declared_size max_file_size = true
    · simp [hs, isRejected]
    · rcases h with hdec | ⟨s, hds, hgt⟩
      · simp [hs, hdec, isRejected]
      · exfalso
        apply hs
        subst hds
        have hsz : s ≠ 0 := by omega
        simp [size_check, hsz, hgt]

/-- C9 witness: the rejection evaluated on a concrete upload of the single
invalid byte 0xFF with a declared size within bounds. -/
theorem c9_reject_undecodable_or_oversized_witness :
    isRejected (upload_scan 1000 "scan.xml" (some 1) [0xFF]
      (.ok 7)).result = true ∧
    (upload_scan 1000 "scan.xml" (some 1) [0xFF] (.ok 7)).job_created = false :=
  c9_reject_undecodable_or_oversized 1000 "scan.xml" (some 1) [0xFF] (.ok 7)
    (Or.inl (by decide))

/-- C10: any upload whose declared filename does not end in `.xml` is
rejected with HTTP 400 before the file content is read, and no scan job is
created — regardless of the content bytes. -/
theorem c10_non_xml_filename_rejected (max_file_size : Nat) (filename : String)
    (declared_size : Option Nat) (content : List Nat)
    (processing : ProcessOutcome)
    (h : pyEndsWith filename ".xml" = false) :
    (upload_scan max_file_size filename declared_size content processing).result =
      .rejected 400 "Only XML files are allowed" ∧
    (upload_scan max_file_size filename declared_size content
      processing).content_read = false ∧
    (upload_scan max_file_size filename declared_size content
      processing).job_created = false := by
  unfold upload_scan
  simp [h]

/-- C10 witness: the early rejection evaluated on a concrete `.txt` upload
whose content is perfectly valid UTF-8. -/
theorem c10_non_xml_filename_rejected_witness :
    (upload_scan 1000 "scan.txt" (some 4) [0x3C, 0x61, 0x2F, 0x3E]
      (.ok 7)).result = .rejected 400 "Only XML files are allowed" ∧
    (upload_scan 1000 "scan.txt" (some 4) [0x3C, 0x61, 0x2F, 0x3E]
      (.ok 7)).content_read = false ∧
    (upload_scan 1000 "scan.txt" (some 4) [0x3C, 0x61, 0x2F, 0x3E]
      (.ok 7)).job_created = false :=
  c10_non_xml_filename_rejected 1000 "scan.txt" (some 4)
    [0x3C, 0x61, 0x2F, 0x3E] (.ok 7) (by decide)

theorem filterMap_some_comp {α β : Type} (g : α → β) (l : List α) :
    l.filterMap (fun a => some (g a)) = l.map g := by
  induction l with
  | nil => rfl
  | cons a t ih => simp [List.filterMap_cons, ih]

theorem filterMap_replicate_none {α β : Type} (f : α → Option β) (a : α)
    (h : f a = none) (n : Nat) : (List.replicate n a).filterMap f = [] := by
  induction n with
  | zero => rfl
  | succ m ih => simp [List.replicate_succ, List.filterMap_cons, h, ih]

theorem countP_replicate_false {α : Type} (p : α → Bool) (a : α)
    (h : p a = false) (n : Nat) : (List.replicate n a).countP p = 0 := by
  induction n with
  | zero => rfl
  | succ m ih => simp [List.replicate_succ, List.countP_cons, h, ih]

theorem progress_values_analyzing (names : List String) :
    progress_values (analyzing_events names) =
      (List.range names.length).map
        (fun i => 30 + (40 * (i + 1)) / names.length) := by
  unfold progress_values analyzing_events
  rw [List.filterMap_map]
  exact filterMap_some_comp _ _

theorem countP_analyzing (names : List String) :
    (analyzing_events names).countP carries_result_or_error = 0 := by
  rw [List.countP_eq_zero]
  intro e he
  rcases List.mem_map.mp he with ⟨i, _, rfl⟩
  simp [carries_result_or_error]

theorem analyzing_values_chain (N : Nat) :
    List.Chain' (fun a b => a ≤ b)
      ((List.range N).map (fun i => 30 + (40 * (i + 1)) / N)) := by
  rw [List.chain'_map]
  cases N with
  | zero => simp
  | succ n =>
    rw [List.chain'_range_succ]
    intro m hm
    exact Nat.add_le_add_left (Nat.div_le_div_right (by omega)) 30

theorem analyzing_values_bounds (N x : Nat)
    (hx : x ∈ (List.range N).map (fun i => 30 + (40 * (i + 1)) / N)) :
    30 ≤ x ∧ x ≤ 70 := by
  rcases List.mem_map.mp hx with ⟨i, hi, rfl⟩
  have hiN : i + 1 ≤ N := List.mem_range.mp hi
  refine ⟨Nat.le_add_right 30 _, ?_⟩
  have h1 : 40 * (i + 1) / N ≤ 40 * N / N := Nat.div_le_div_right (by omega)
  have h2 : 40 * N / N ≤ 40 := by
    cases N with
    | zero => simp
    | succ n =>
      rw [Nat.mul_div_cancel _ (Nat.succ_pos n)]
  omega

theorem success_values_chain (N : Nat) :
    List.Chain' (fun a b => a ≤ b)
      (0 :: 10 :: 30 ::
        ((List.range N).map (fun i => 30 + (40 * (i + 1)) / N) ++ [80])) := by
  refine List.chain'_cons.mpr ⟨by omega, ?_⟩
  refine List.chain'_cons.mpr ⟨by omega, ?_⟩
  refine List.chain'_cons'.mpr ⟨?_, ?_⟩
  · intro y hy
    have hmem := List.mem_of_mem_head? hy
    rcases List.mem_append.mp hmem with hA | h80
    · exact (analyzing_values_bounds N y hA).1
    · have h80y : y = 80 := by simpa using h80
      omega
  · rw [List.chain'_append]
    refine ⟨analyzing_values_chain N, by simp, ?_⟩
    intro x hx y hy
    have hxm : x ∈ (List.range N).map (fun i => 30 + (40 * (i + 1)) / N) :=
      List.mem_of_mem_getLast? hx
    have hy80 : 80 = y := by simpa using hy
    have := (analyzing_values_bounds N x hxm).2
    omega

theorem progress_values_nil : progress_values [] = [] := rfl

theorem progress_values_cons_progress (p : Nat) (st msg : String)
    (l : List ProgressEvent) :
    progress_values (.progress p st msg :: l) = p :: progress_values l := rfl

theorem progress_values_cons_complete (r : ScanResults) (l : List ProgressEvent) :
    progress_values (.complete r :: l) = progress_values l := rfl

theorem progress_values_cons_refresh (l : List ProgressEvent) :
    progress_values (.dashboardRefresh :: l) = progress_values l := rfl

theorem progress_values_append (l1 l2 : List ProgressEvent) :
    progress_values (l1 ++ l2) = progress_values l1 ++ progress_values l2 :=
  List.filterMap_append l1 l2 _

theorem progress_values_replicate_alert (n : Nat) :
    progress_values (List.replicate n .criticalAlert) = [] :=
  filterMap_replicate_none _ _ rfl n

theorem progress_values_success (run : JobRun) (parsed : ParsedScan)
    (hp : run.parse = Except.ok parsed) (hc : run.commit_fails = none) :
    progress_values (create_scan_events run) =
      0 :: 10 :: 30 ::
        ((List.range parsed.services.length).map
          (fun i => 30 + (40 * (i + 1)) / parsed.services.length) ++ [80]) := by
  unfold create_scan_events process_scan_events
  rw [hp, hc]
  simp only [pre_events, progress_values_cons_progress, progress_values_append,
    progress_values_replicate_alert, progress_values_cons_complete,
    progress_values_cons_refresh, progress_values_nil,
    progress_values_analyzing, List.length_map]
  simp

/-- C6 amended: on the success path the progress percentages delivered to a
surviving subscriber are non-decreasing (0, 10, 30, the per-service values
up to 70, then 80), and every run — success, parse failure or save failure —
delivers exactly one event carrying a result summary or an error.  On a
failure, however, that terminal event carries progress 0, which is lower
than any intermediate progress already delivered (the counterexample), so
the monotonicity half of the claim holds only for successful runs. -/
theorem c6_progress_amended (run : JobRun) :
    (∀ parsed, run.parse = Except.ok parsed → run.commit_fails = none →
      List.Chain' (fun a b => a ≤ b) (progress_values (create_scan_events run))) ∧
    (create_scan_events run).countP carries_result_or_error = 1 := by
  constructor
  · intro parsed hp hc
    rw [progress_values_success run parsed hp hc]
    exact success_values_chain parsed.services.length
  · rcases hp : run.parse with e | parsed
    · unfold create_scan_events process_scan_events
      rw [hp]
      simp [List.countP_cons, List.countP_append, carries_result_or_error]
    · rcases hc : run.commit_fails with _ | e
      · unfold create_scan_events process_scan_events
        rw [hp, hc]
        simp [List.countP_cons, List.countP_append, carries_result_or_error,
          pre_events, countP_analyzing, countP_replicate_false]
      · unfold create_scan_events process_scan_events
        rw [hp, hc]
        simp [List.countP_cons, List.countP_append, carries_result_or_error,
          pre_events, countP_analyzing]

/-- C6 amended, witness: monotonicity and the single terminal event
evaluated on the concrete successful run over the one-host document. -/
theorem c6_progress_amended_witness :
    List.Chain' (fun a b => a ≤ b)
      (progress_values (create_scan_events successRun)) ∧
    (create_scan_events successRun).countP carries_result_or_error = 1 :=
  ⟨(c6_progress_amended successRun).1 (parse_xml_file sampleRoot) rfl rfl,
   (c6_progress_amended successRun).2⟩

/-- C6 counterexample: a job that fails during parsing — after the 0 and
10 percent events were already delivered — publishes its failure
notification with progress hard-coded to 0, so one subscriber sees the
percentages [0, 10, 0], which is not non-decreasing.  (The terminal-event
half of the claim does hold: exactly one event carries a result or error.) -/
theorem c6_progress_drop_counterexample :
    progress_values (create_scan_events parseFailRun) = [0, 10, 0] ∧
    ¬ List.Chain' (fun a b => a ≤ b)
      (progress_values (create_scan_events parseFailRun)) ∧
    (create_scan_events parseFailRun).countP carries_result_or_error = 1 := by
  refine ⟨by decide, ?_, by decide⟩
  intro h
  rw [show progress_values (create_scan_events parseFailRun) = [0, 10, 0] from
    by decide] at h
  rcases List.chain'_cons.mp h with ⟨_, h2⟩
  rcases List.chain'_cons.mp h2 with ⟨h10, _⟩
  omega

end VulnPatchAI
